import Mathlib

/-!
# Account server: signup, login, forgot-password, reset-password

A shallow embedding of the four route handlers of `src/server.js`.

* A request body field is `Option String`: `none` is a field the JSON body
  does not carry (`undefined` after destructuring), `some s` a string.
* The MySQL pool, bcrypt, the mail transporter and `Math.random` are outside
  the repository.  Every `await` on them is resolved by a per-request `World`
  that says whether the promise rejects, and the users table is a list of rows.
* Every handler is a total function from the state before the request to the
  response and the state after it.
-/

namespace AuthServer

/-! ## Data model -/

/-- Row of the `users` table: the columns named by the two SQL statements of
`/signup` and by the projection of `/login`. -/
structure UserRow where
  id : Nat
  first_name : String
  last_name : String
  email : String
  password : String
  deriving DecidableEq, Repr

/-- The `user` object of the `/login` success body. -/
structure UserView where
  id : Nat
  firstName : String
  lastName : String
  email : String
  deriving DecidableEq, Repr

/-- What `res.status(..).json(..)` sends: the status code and the keys of the
JSON body (`success` and `user` are absent from every error body). -/
structure Response where
  status : Nat
  success : Option Bool
  message : String
  user : Option UserView
  deriving DecidableEq, Repr

/-- The `otpStore` map of `server.js`, as its entries in insertion order. -/
abbrev OtpStore := List (String × String)

/-- The mutable state the handlers share: the users table behind `pool` and
the in-memory `otpStore`. -/
structure ServerState where
  users : List UserRow
  otpStore : OtpStore
  deriving DecidableEq, Repr

/-- How the `INSERT` of `/signup` can reject. -/
inductive InsertError where
  | dupEntry
  | unavailable
  deriving DecidableEq, Repr

/-- Outcome of everything a single request awaits outside the process: which
promises reject, the salt bcrypt draws, and the integer part of
`Math.random() * 900000`. -/
structure World where
  selectFails : Bool
  hashFails : Bool
  compareFails : Bool
  insertFails : Option InsertError
  updateFails : Bool
  sendMailFails : Bool
  salt : Nat
  rand : Nat
  deriving DecidableEq, Repr

/-- The two bcryptjs functions the server calls: `hash` (with the salt it
draws) and `compare`. -/
structure Bcrypt where
  hash : Nat → String → String
  compare : String → String → Bool

/-- An ideal password hash: a password verifies against a digest exactly when
it is the password that was hashed. -/
def Bcrypt.Ideal (B : Bcrypt) : Prop :=
  ∀ s p q, B.compare p (B.hash s q) = decide (p = q)

/-- Body of `POST /signup`. -/
structure SignupBody where
  firstName : Option String
  lastName : Option String
  email : Option String
  password : Option String
  confirmPassword : Option String
  deriving DecidableEq, Repr

/-- Body of `POST /login`. -/
structure LoginBody where
  email : Option String
  password : Option String
  deriving DecidableEq, Repr

/-- Body of `POST /forgot-password`. -/
structure ForgotBody where
  email : Option String
  deriving DecidableEq, Repr

/-- Body of `POST /reset-password`. -/
structure ResetBody where
  email : Option String
  otp : Option String
  newPassword : Option String
  confirmPassword : Option String
  deriving DecidableEq, Repr

/-! ## JavaScript primitives -/

/-- JavaScript `!x` on a body field: true for `undefined` and for `""`. -/
def jsNot : Option String → Bool
  | none => true
  | some s => s == ""

/-- JavaScript `s.length`: the number of UTF-16 code units, two for a code
point outside the basic plane. -/
def jsLength (s : String) : Nat :=
  (s.data.map (fun c => if c.toNat < 65536 then 1 else 2)).sum

/-- `otpStore.get(key)`. -/
def OtpStore.get : OtpStore → String → Option String
  | [], _ => none
  | (k, v) :: rest, key => if k = key then some v else OtpStore.get rest key

/-- `otpStore.set(key, value)`: an existing key keeps its place and takes the
new value, a new key is appended. -/
def OtpStore.set : OtpStore → String → String → OtpStore
  | [], key, value => [(key, value)]
  | (k, v) :: rest, key, value =>
    if k = key then (k, value) :: rest else (k, v) :: OtpStore.set rest key value

/-- `otpStore.delete(key)`. -/
def OtpStore.delete (m : OtpStore) (key : String) : OtpStore :=
  m.filter (fun kv => kv.1 ≠ key)

/-- The entries a map holds under `key`. -/
def OtpStore.entriesFor (m : OtpStore) (key : String) : List (String × String) :=
  m.filter (fun kv => kv.1 = key)

/-! ## The users table -/

/-- Modelled from the spec: the MySQL `users` table is not part of the
repository.  `SELECT .. FROM users WHERE email = ?` is the spec's
`lookupByEmail`, an exact match on the key it is given. -/
def selectByEmail (users : List UserRow) (email : String) : List UserRow :=
  users.filter (fun u => u.email = email)

/-- Modelled from the spec: `INSERT INTO users (first_name, last_name, email,
password) VALUES (?, ?, ?, ?)` adds one row; the table supplies the `id`. -/
def insertUser (users : List UserRow) (firstName lastName email hashed : String) :
    List UserRow :=
  users ++ [{ id := users.length + 1, first_name := firstName, last_name := lastName,
              email := email, password := hashed }]

/-- Modelled from the spec: `UPDATE users SET password = ? WHERE email = ?`
is the spec's `updatePasswordHash`. -/
def updatePassword (users : List UserRow) (hashed email : String) : List UserRow :=
  users.map (fun u => if u.email = email then { u with password := hashed } else u)

/-! ## Route handlers -/

/-- Handler of `app.post('/signup')`. -/
def signup (B : Bcrypt) (w : World) (st : ServerState) (body : SignupBody) :
    Response × ServerState :=
  if jsNot body.firstName || jsNot body.lastName || jsNot body.email
      || jsNot body.password || jsNot body.confirmPassword then
    (⟨400, none, "All fields are required.", none⟩, st)
  else
    match body.firstName, body.lastName, body.email, body.password, body.confirmPassword with
    | some firstName, some lastName, some email, some password, some confirmPassword =>
      if password ≠ confirmPassword then
        (⟨400, none, "Passwords don't match.", none⟩, st)
      else if jsLength password < 8 then
        (⟨400, none, "Password must be at least 8 characters.", none⟩, st)
      else if w.selectFails then
        (⟨500, none, "Internal server error.", none⟩, st)
      else if (selectByEmail st.users email).length > 0 then
        (⟨409, none, "Email already exists.", none⟩, st)
      else if w.hashFails then
        (⟨500, none, "Internal server error.", none⟩, st)
      else
        let hashedPassword := B.hash w.salt password
        match w.insertFails with
        | some _ => (⟨500, none, "Internal server error.", none⟩, st)
        | none =>
          (⟨201, some true, "User registered successfully.", none⟩,
            { st with users := insertUser st.users firstName lastName email hashedPassword })
    | _, _, _, _, _ => (⟨400, none, "All fields are required.", none⟩, st)

/-- Handler of `app.post('/login')`. -/
def login (B : Bcrypt) (w : World) (st : ServerState) (body : LoginBody) :
    Response × ServerState :=
  if jsNot body.email || jsNot body.password then
    (⟨400, none, "Email and password are required.", none⟩, st)
  else
    match body.email, body.password with
    | some email, some password =>
      if w.selectFails then
        (⟨500, none, "Login failed.", none⟩, st)
      else
        match selectByEmail st.users email with
        | [] => (⟨401, none, "Invalid email or password.", none⟩, st)
        | user :: _ =>
          if w.compareFails then
            (⟨500, none, "Login failed.", none⟩, st)
          else if !B.compare password user.password then
            (⟨401, none, "Invalid email or password.", none⟩, st)
          else
            (⟨200, some true, "Login successful",
              some { id := user.id, firstName := user.first_name,
                     lastName := user.last_name, email := user.email }⟩, st)
    | _, _ => (⟨400, none, "Email and password are required.", none⟩, st)

/-- The code `/forgot-password` draws:
`Math.floor(100000 + Math.random() * 900000).toString()`. -/
def otpCode (w : World) : String :=
  toString (100000 + w.rand % 900000)

/-- Handler of `app.post('/forgot-password')`. -/
def forgotPassword (w : World) (st : ServerState) (body : ForgotBody) :
    Response × ServerState :=
  if jsNot body.email then
    (⟨400, none, "Email required", none⟩, st)
  else
    match body.email with
    | some email =>
      if w.selectFails then
        (⟨500, none, "Error sending OTP", none⟩, st)
      else if (selectByEmail st.users email).length = 0 then
        (⟨404, none, "Email not registered", none⟩, st)
      else
        let st1 := { st with otpStore := st.otpStore.set email (otpCode w) }
        if w.sendMailFails then
          (⟨500, none, "Error sending OTP", none⟩, st1)
        else
          (⟨200, some true, "OTP sent to email", none⟩, st1)
    | none => (⟨400, none, "Email required", none⟩, st)

/-- Handler of `app.post('/reset-password')`. -/
def resetPassword (B : Bcrypt) (w : World) (st : ServerState) (body : ResetBody) :
    Response × ServerState :=
  if jsNot body.email || jsNot body.otp || jsNot body.newPassword
      || jsNot body.confirmPassword then
    (⟨400, none, "All fields required", none⟩, st)
  else
    match body.email, body.otp, body.newPassword, body.confirmPassword with
    | some email, some otp, some newPassword, some confirmPassword =>
      if newPassword ≠ confirmPassword then
        (⟨400, none, "Passwords do not match", none⟩, st)
      else if st.otpStore.get email ≠ some otp then
        (⟨400, none, "Invalid OTP", none⟩, st)
      else if w.hashFails then
        (⟨500, none, "Reset failed", none⟩, st)
      else
        let hashedPassword := B.hash w.salt newPassword
        if w.updateFails then
          (⟨500, none, "Reset failed", none⟩, st)
        else
          (⟨200, some true, "Password updated", none⟩,
            { users := updatePassword st.users hashedPassword email,
              otpStore := st.otpStore.delete email })
    | _, _, _, _ => (⟨400, none, "All fields required", none⟩, st)

/-! ## Concrete instances used to evaluate the handlers -/

/-- A world in which every awaited call succeeds. -/
def calm (salt rand : Nat) : World :=
  { selectFails := false, hashFails := false, compareFails := false, insertFails := none,
    updateFails := false, sendMailFails := false, salt := salt, rand := rand }

/-- A stand-in for bcrypt that tags the password with the salt's parity and
verifies by stripping the tag. -/
def toyBcrypt : Bcrypt :=
  { hash := fun s p => (if s % 2 = 0 then "a" else "b") ++ p
    compare := fun p h => h == "a" ++ p || h == "b" ++ p }

/-! ## Reachable states -/

/-- Every awaited call of the request succeeds. -/
def World.AllSucceed (w : World) : Prop :=
  w.selectFails = false ∧ w.hashFails = false ∧ w.compareFails = false ∧
    w.insertFails = none ∧ w.updateFails = false ∧ w.sendMailFails = false

/-- The state of a freshly started server with an empty users table. -/
def ServerState.empty : ServerState := { users := [], otpStore := [] }

/-- What every state the handlers can reach satisfies: stored emails are
non-empty, and `otpStore` is a map (one entry per key) from non-empty emails
to non-empty codes. -/
def WellFormed (st : ServerState) : Prop :=
  (∀ u ∈ st.users, u.email ≠ "") ∧
    (∀ kv ∈ st.otpStore, kv.1 ≠ "" ∧ kv.2 ≠ "") ∧
    (st.otpStore.map Prod.fst).Nodup

/-! ## Concrete states -/

/-- A users table with one account, `a@x.com`, whose password `longenough1`
was hashed by `toyBcrypt` with salt 0. -/
def janeUsers : List UserRow :=
  [{ id := 1, first_name := "Jane", last_name := "Doe", email := "a@x.com",
     password := "alongenough1" }]

/-- The account of `janeUsers` with the reset code `123456` pending. -/
def janePending : ServerState :=
  { users := janeUsers, otpStore := [("a@x.com", "123456")] }

/-- The account of `janeUsers` with no reset code pending. -/
def janeIdle : ServerState :=
  { users := janeUsers, otpStore := [] }

/-! ## Register against its first-failure-wins reference -/

/-- Register as the specification words it, first failure wins: a missing or
empty field, then unequal passwords, then a password of fewer than 8
characters (`password.length`), each 400; then an email already in the store,
409; otherwise 201 and one new row whose password is the hash.  Returns the
status and the state after. -/
def registerReference (B : Bcrypt) (salt : Nat) (st : ServerState) (body : SignupBody) :
    Nat × ServerState :=
  if body.firstName.getD "" = "" ∨ body.lastName.getD "" = "" ∨ body.email.getD "" = ""
      ∨ body.password.getD "" = "" ∨ body.confirmPassword.getD "" = "" then (400, st)
  else if body.password ≠ body.confirmPassword then (400, st)
  else if jsLength (body.password.getD "") < 8 then (400, st)
  else if ∃ u ∈ st.users, u.email = body.email.getD "" then (409, st)
  else
    (201, { users := st.users ++
              [{ id := st.users.length + 1, first_name := body.firstName.getD "",
                 last_name := body.lastName.getD "", email := body.email.getD "",
                 password := B.hash salt (body.password.getD "") }],
            otpStore := st.otpStore })

/-! ## Password length across Register and ConsumeResetCode -/

/-- Every stored password is the hash of a password of at least 8
characters. -/
def LongPasswords (B : Bcrypt) (users : List UserRow) : Prop :=
  ∀ u ∈ users, ∃ s p, u.password = B.hash s p ∧ 8 ≤ jsLength p

/-! ## Lemmas on the primitives -/

theorem jsNot_some (s : String) : jsNot (some s) = decide (s = "") := by
  by_cases h : s = "" <;> simp [jsNot, h]

theorem toDigitsCore_ne_nil (b : Nat) :
    ∀ (f n : Nat) (ds : List Char), (ds ≠ [] ∨ 0 < f) → Nat.toDigitsCore b f n ds ≠ [] := by
  intro f
  induction f with
  | zero =>
    intro n ds h
    rcases h with h | h
    · simpa [Nat.toDigitsCore] using h
    · exact absurd h (Nat.lt_irrefl 0)
  | succ f ih =>
    intro n ds _
    simp only [Nat.toDigitsCore]
    split
    · simp
    · exact ih _ _ (Or.inl (by simp))

theorem otpCode_ne_empty (w : World) : otpCode w ≠ "" := by
  unfold otpCode
  intro h
  have h1 : (Nat.toDigits 10 (100000 + w.rand % 900000)) = [] := by
    have := congrArg String.data h
    simpa [toString, Nat.repr, List.asString] using this
  exact toDigitsCore_ne_nil 10 _ _ [] (Or.inr (Nat.succ_pos _)) h1

namespace OtpStore

theorem get_set_same (m : OtpStore) (k v : String) : (m.set k v).get k = some v := by
  induction m with
  | nil => simp [OtpStore.set, OtpStore.get]
  | cons kv rest ih =>
    obtain ⟨k1, v1⟩ := kv
    by_cases h : k1 = k
    · simp [OtpStore.set, OtpStore.get, h]
    · simp [OtpStore.set, OtpStore.get, h, ih]

theorem get_set_other (m : OtpStore) (k v k2 : String) (hne : k2 ≠ k) :
    (m.set k v).get k2 = m.get k2 := by
  induction m with
  | nil =>
    have : k ≠ k2 := fun h => hne h.symm
    simp [OtpStore.set, OtpStore.get, this]
  | cons kv rest ih =>
    obtain ⟨k1, v1⟩ := kv
    by_cases h : k1 = k
    · have : k ≠ k2 := fun h => hne h.symm
      subst h
      simp [OtpStore.set, OtpStore.get, this]
    · by_cases h2 : k1 = k2
      · subst h2
        simp [OtpStore.set, OtpStore.get, h]
      · simp [OtpStore.set, OtpStore.get, h, h2, ih]

theorem get_delete_same (m : OtpStore) (k : String) : (m.delete k).get k = none := by
  induction m with
  | nil => simp [OtpStore.delete, OtpStore.get]
  | cons kv rest ih =>
    obtain ⟨k1, v1⟩ := kv
    by_cases h : k1 = k
    · simpa [OtpStore.delete, List.filter, h] using ih
    · simpa [OtpStore.delete, List.filter, h, OtpStore.get] using ih

theorem mem_of_get (m : OtpStore) (k v : String) (h : m.get k = some v) : (k, v) ∈ m := by
  induction m with
  | nil => simp [OtpStore.get] at h
  | cons kv rest ih =>
    obtain ⟨k1, v1⟩ := kv
    by_cases hk : k1 = k
    · simp [OtpStore.get, hk] at h
      simp [hk, h]
    · simp [OtpStore.get, hk] at h
      exact List.mem_cons_of_mem _ (ih h)

theorem keys_set (m : OtpStore) (k v : String) :
    (m.set k v).map Prod.fst = if k ∈ m.map Prod.fst then m.map Prod.fst
      else m.map Prod.fst ++ [k] := by
  induction m with
  | nil => simp [OtpStore.set]
  | cons kv rest ih =>
    obtain ⟨k1, v1⟩ := kv
    by_cases h : k1 = k
    · simp [OtpStore.set, h]
    · have h' : k ≠ k1 := fun e => h e.symm
      simp only [OtpStore.set, h, if_false, List.map_cons, ih, List.mem_cons, h', false_or]
      split <;> simp

theorem mem_set (m : OtpStore) (k v : String) (kv : String × String)
    (h : kv ∈ m.set k v) : kv ∈ m ∨ kv = (k, v) := by
  induction m with
  | nil => simpa [OtpStore.set] using h
  | cons e rest ih =>
    obtain ⟨k1, v1⟩ := e
    by_cases hk : k1 = k
    · simp [OtpStore.set, hk] at h
      rcases h with h | h
      · right; exact h
      · left; exact List.mem_cons_of_mem _ h
    · simp [OtpStore.set, hk] at h
      rcases h with h | h
      · left; simp [h]
      · rcases ih h with h1 | h1
        · left; exact List.mem_cons_of_mem _ h1
        · right; exact h1

theorem entriesFor_of_not_mem (m : OtpStore) (k : String) (h : k ∉ m.map Prod.fst) :
    m.entriesFor k = [] := by
  simp only [OtpStore.entriesFor, List.filter_eq_nil_iff]
  intro kv hkv
  simp only [decide_eq_true_eq]
  intro hk
  exact h (List.mem_map.mpr ⟨kv, hkv, hk⟩)

theorem entriesFor_set (m : OtpStore) (k v : String) (hnd : (m.map Prod.fst).Nodup) :
    (m.set k v).entriesFor k = [(k, v)] := by
  induction m with
  | nil => simp [OtpStore.set, OtpStore.entriesFor]
  | cons e rest ih =>
    obtain ⟨k1, v1⟩ := e
    simp only [List.map_cons, List.nodup_cons] at hnd
    by_cases hk : k1 = k
    · subst hk
      have := entriesFor_of_not_mem rest k1 hnd.1
      simp only [OtpStore.entriesFor] at this
      simp [OtpStore.set, OtpStore.entriesFor, List.filter, this]
    · have := ih hnd.2
      simp only [OtpStore.entriesFor] at this
      simp [OtpStore.set, OtpStore.entriesFor, List.filter, hk, this]

end OtpStore

/-! ## Lemmas on the users table -/

theorem selectByEmail_updatePassword (users : List UserRow) (h e : String) :
    selectByEmail (updatePassword users h e) e
      = (selectByEmail users e).map (fun u => { u with password := h }) := by
  induction users with
  | nil => simp [selectByEmail, updatePassword]
  | cons u rest ih =>
    simp only [selectByEmail, updatePassword] at ih
    by_cases hu : u.email = e
    · simp [selectByEmail, updatePassword, List.filter, hu, ih]
    · simp [selectByEmail, updatePassword, List.filter, hu, ih]

theorem email_of_mem_updatePassword (users : List UserRow) (h e : String) (u : UserRow)
    (hu : u ∈ updatePassword users h e) : ∃ v ∈ users, v.email = u.email := by
  simp only [updatePassword, List.mem_map] at hu
  obtain ⟨v, hv, rfl⟩ := hu
  refine ⟨v, hv, ?_⟩
  split <;> rfl

theorem selectByEmail_insertUser_same (users : List UserRow) (f l e h : String) :
    selectByEmail (insertUser users f l e h) e ≠ [] := by
  simp [selectByEmail, insertUser, List.filter_append, List.filter]

/-! ## The handlers on well-typed requests -/

theorem resetPassword_accepts (B : Bcrypt) (w : World) (st : ServerState) (e c p : String)
    (he : e ≠ "") (hc : c ≠ "") (hp : p ≠ "") (hget : st.otpStore.get e = some c)
    (hh : w.hashFails = false) (hu : w.updateFails = false) :
    resetPassword B w st ⟨some e, some c, some p, some p⟩
      = (⟨200, some true, "Password updated", none⟩,
          { users := updatePassword st.users (B.hash w.salt p) e,
            otpStore := st.otpStore.delete e }) := by
  simp [resetPassword, jsNot, he, hc, hp, hget, hh, hu]

theorem resetPassword_rejects (B : Bcrypt) (w : World) (st : ServerState) (e c p : String)
    (he : e ≠ "") (hc : c ≠ "") (hp : p ≠ "") (hget : st.otpStore.get e ≠ some c) :
    resetPassword B w st ⟨some e, some c, some p, some p⟩
      = (⟨400, none, "Invalid OTP", none⟩, st) := by
  simp [resetPassword, jsNot, he, hc, hp, hget]

theorem resetPassword_fails (B : Bcrypt) (w : World) (st : ServerState) (e c p : String)
    (he : e ≠ "") (hc : c ≠ "") (hp : p ≠ "") (hget : st.otpStore.get e = some c)
    (hf : w.hashFails = true ∨ w.updateFails = true) :
    resetPassword B w st ⟨some e, some c, some p, some p⟩
      = (⟨500, none, "Reset failed", none⟩, st) := by
  rcases hf with hf | hf
  · simp [resetPassword, jsNot, he, hc, hp, hget, hf]
  · by_cases hh : w.hashFails = true
    · simp [resetPassword, jsNot, he, hc, hp, hget, hh]
    · simp [resetPassword, jsNot, he, hc, hp, hget, hh, hf]

theorem forgotPassword_stores (w : World) (st : ServerState) (e : String)
    (he : e ≠ "") (hs : w.selectFails = false) (hreg : selectByEmail st.users e ≠ []) :
    forgotPassword w st ⟨some e⟩
      = (if w.sendMailFails then ⟨500, none, "Error sending OTP", none⟩
          else ⟨200, some true, "OTP sent to email", none⟩,
         { st with otpStore := st.otpStore.set e (otpCode w) }) := by
  by_cases hm : w.sendMailFails = true
  · simp [forgotPassword, jsNot, he, hs, hreg, hm]
  · simp [forgotPassword, jsNot, he, hs, hreg, hm]

theorem login_state (B : Bcrypt) (w : World) (st : ServerState) (body : LoginBody) :
    (login B w st body).2 = st := by
  unfold login
  split
  · rfl
  · split
    · split
      · rfl
      · split
        · rfl
        · split
          · rfl
          · split <;> rfl
    · rfl

/-! ## The handlers keep the state well formed -/

theorem wellFormed_empty : WellFormed ServerState.empty := by
  simp [WellFormed, ServerState.empty]

theorem wellFormed_signup (B : Bcrypt) (w : World) (st : ServerState) (body : SignupBody)
    (hwf : WellFormed st) : WellFormed (signup B w st body).2 := by
  unfold signup
  split
  · exact hwf
  · rename_i hnot
    split
    · rename_i firstName lastName email password confirmPassword hf hl he hpw hcp
      have hemail : email ≠ "" := by
        intro h
        apply hnot
        simp [he, h, jsNot]
      (repeat' split) <;> try exact hwf
      refine ⟨?_, hwf.2⟩
      intro u hu
      simp only [insertUser, List.mem_append, List.mem_singleton] at hu
      rcases hu with hu | hu
      · exact hwf.1 u hu
      · rw [hu]; exact hemail
    · exact hwf

theorem wellFormed_login (B : Bcrypt) (w : World) (st : ServerState) (body : LoginBody)
    (hwf : WellFormed st) : WellFormed (login B w st body).2 := by
  rw [login_state]; exact hwf

theorem wellFormed_set (st : ServerState) (e c : String) (he : e ≠ "") (hc : c ≠ "")
    (hwf : WellFormed st) : WellFormed { st with otpStore := st.otpStore.set e c } := by
  refine ⟨hwf.1, ?_, ?_⟩
  · intro kv hkv
    rcases OtpStore.mem_set _ _ _ _ hkv with h | h
    · exact hwf.2.1 kv h
    · rw [h]; exact ⟨he, hc⟩
  · show ((st.otpStore.set e c).map Prod.fst).Nodup
    rw [OtpStore.keys_set]
    split
    · exact hwf.2.2
    · rename_i hmem
      exact List.Nodup.append hwf.2.2 (List.nodup_singleton e) (by simpa using hmem)

theorem wellFormed_forgotPassword (w : World) (st : ServerState) (body : ForgotBody)
    (hwf : WellFormed st) : WellFormed (forgotPassword w st body).2 := by
  unfold forgotPassword
  split
  · exact hwf
  · rename_i hnot
    split
    · rename_i email he
      have hemail : email ≠ "" := by
        intro h
        apply hnot
        simp [he, h, jsNot]
      (repeat' split) <;>
        first
          | exact hwf
          | exact wellFormed_set st email (otpCode w) hemail (otpCode_ne_empty w) hwf
    · exact hwf

theorem wellFormed_resetPassword (B : Bcrypt) (w : World) (st : ServerState)
    (body : ResetBody) (hwf : WellFormed st) : WellFormed (resetPassword B w st body).2 := by
  unfold resetPassword
  split
  · exact hwf
  · split
    · (repeat' split) <;> try exact hwf
      refine ⟨?_, ?_, ?_⟩
      · intro u hu
        obtain ⟨v, hv, hvu⟩ := email_of_mem_updatePassword _ _ _ _ hu
        rw [← hvu]; exact hwf.1 v hv
      · intro kv hkv
        exact hwf.2.1 kv (List.mem_of_mem_filter hkv)
      · exact (List.filter_sublist _).map Prod.fst |>.nodup hwf.2.2
    · exact hwf

theorem email_ne_empty_of_registered (st : ServerState) (e : String) (hwf : WellFormed st)
    (hreg : selectByEmail st.users e ≠ []) : e ≠ "" := by
  obtain ⟨u, hu⟩ := List.exists_mem_of_ne_nil _ hreg
  simp only [selectByEmail, List.mem_filter, decide_eq_true_eq] at hu
  rw [← hu.2]
  exact hwf.1 u hu.1

theorem key_value_ne_empty (st : ServerState) (e c : String) (hwf : WellFormed st)
    (hget : st.otpStore.get e = some c) : e ≠ "" ∧ c ≠ "" :=
  hwf.2.1 (e, c) (OtpStore.mem_of_get _ _ _ hget)

theorem wellFormed_janePending : WellFormed janePending := by
  simp [WellFormed, janePending, janeUsers]

theorem wellFormed_janeIdle : WellFormed janeIdle := by
  simp [WellFormed, janeIdle, janeUsers]

/-! ## Claims on `/reset-password` and `/login` -/

/-- C1: one-shot consumption.  In a reachable state where `e` has the stored
code `c`, `/reset-password` called with `(e, c, p, p)`, `p` non-empty, the hash
and the update succeeding, answers 200 success and leaves no code for `e`; a
second call with the same `(e, c)` answers 400 `Invalid OTP` and changes
nothing, the users table included. -/
theorem reset_code_is_one_shot (B : Bcrypt) (w1 w2 : World) (st : ServerState)
    (e c p : String) (hwf : WellFormed st) (hget : st.otpStore.get e = some c)
    (hp : p ≠ "") (hh : w1.hashFails = false) (hu : w1.updateFails = false) :
    (resetPassword B w1 st ⟨some e, some c, some p, some p⟩).1
        = ⟨200, some true, "Password updated", none⟩ ∧
      (resetPassword B w1 st ⟨some e, some c, some p, some p⟩).2.otpStore.get e = none ∧
      (resetPassword B w1 st ⟨some e, some c, some p, some p⟩).2.otpStore.entriesFor e = [] ∧
      ∀ q : String, q ≠ "" →
        resetPassword B w2 (resetPassword B w1 st ⟨some e, some c, some p, some p⟩).2
            ⟨some e, some c, some q, some q⟩
          = (⟨400, none, "Invalid OTP", none⟩,
              (resetPassword B w1 st ⟨some e, some c, some p, some p⟩).2) := by
  obtain ⟨he, hc⟩ := key_value_ne_empty st e c hwf hget
  rw [resetPassword_accepts B w1 st e c p he hc hp hget hh hu]
  refine ⟨rfl, OtpStore.get_delete_same _ _, ?_, ?_⟩
  · simp [OtpStore.entriesFor, OtpStore.delete, List.filter_filter]
  · intro q hq
    apply resetPassword_rejects B w2 _ e c q he hc hq
    simp [OtpStore.get_delete_same]

/-- Witness of C1 on the pending reset of `a@x.com`. -/
theorem reset_code_is_one_shot_witness :
    (resetPassword toyBcrypt (calm 0 0) janePending
        ⟨some "a@x.com", some "123456", some "newpass123", some "newpass123"⟩).1
        = ⟨200, some true, "Password updated", none⟩ ∧
      (resetPassword toyBcrypt (calm 0 0) janePending
        ⟨some "a@x.com", some "123456", some "newpass123", some "newpass123"⟩).2.otpStore.get
          "a@x.com" = none ∧
      (resetPassword toyBcrypt (calm 0 0) janePending
        ⟨some "a@x.com", some "123456", some "newpass123", some "newpass123"⟩).2.otpStore.entriesFor
          "a@x.com" = [] ∧
      ∀ q : String, q ≠ "" →
        resetPassword toyBcrypt (calm 1 1) (resetPassword toyBcrypt (calm 0 0) janePending
            ⟨some "a@x.com", some "123456", some "newpass123", some "newpass123"⟩).2
            ⟨some "a@x.com", some "123456", some q, some q⟩
          = (⟨400, none, "Invalid OTP", none⟩,
              (resetPassword toyBcrypt (calm 0 0) janePending
                ⟨some "a@x.com", some "123456", some "newpass123", some "newpass123"⟩).2) :=
  reset_code_is_one_shot toyBcrypt (calm 0 0) (calm 1 1) janePending "a@x.com" "123456"
    "newpass123" wellFormed_janePending (by decide) (by decide) rfl rfl

/-- Where `bcrypt.compare` answers: with non-empty email and password and the
lookup answering, the response for an email the table does not hold and the
response for a stored email whose password compares false are the same
response, 401 `Invalid email or password.`, with no `user` key; the body is a
constant and so carries nothing of the stored row. -/
theorem login_failures_indistinguishable (B : Bcrypt) (w1 w2 : World)
    (st1 st2 : ServerState) (e1 p1 e2 p2 : String) (u : UserRow) (rest : List UserRow)
    (he1 : e1 ≠ "") (hp1 : p1 ≠ "") (he2 : e2 ≠ "") (hp2 : p2 ≠ "")
    (hs1 : w1.selectFails = false) (hs2 : w2.selectFails = false)
    (hc2 : w2.compareFails = false)
    (hunknown : selectByEmail st1.users e1 = [])
    (hknown : selectByEmail st2.users e2 = u :: rest)
    (hwrong : B.compare p2 u.password = false) :
    (login B w1 st1 ⟨some e1, some p1⟩).1 = (login B w2 st2 ⟨some e2, some p2⟩).1 ∧
      (login B w1 st1 ⟨some e1, some p1⟩).1
        = ⟨401, none, "Invalid email or password.", none⟩ ∧
      (login B w2 st2 ⟨some e2, some p2⟩).1.user = none := by
  have h1 : (login B w1 st1 ⟨some e1, some p1⟩).1
      = ⟨401, none, "Invalid email or password.", none⟩ := by
    simp [login, jsNot, he1, hp1, hs1, hunknown]
  have h2 : (login B w2 st2 ⟨some e2, some p2⟩).1
      = ⟨401, none, "Invalid email or password.", none⟩ := by
    simp [login, jsNot, he2, hp2, hs2, hc2, hknown, hwrong]
  exact ⟨h1.trans h2.symm, h1, by rw [h2]⟩

/-- An unknown email against a wrong password for `a@x.com`, `bcrypt.compare`
answering. -/
theorem login_failures_indistinguishable_witness :
    (login toyBcrypt (calm 0 0) janeIdle ⟨some "b@x.com", some "longenough1"⟩).1
        = (login toyBcrypt (calm 0 0) janeIdle ⟨some "a@x.com", some "wrongpass"⟩).1 ∧
      (login toyBcrypt (calm 0 0) janeIdle ⟨some "b@x.com", some "longenough1"⟩).1
        = ⟨401, none, "Invalid email or password.", none⟩ ∧
      (login toyBcrypt (calm 0 0) janeIdle ⟨some "a@x.com", some "wrongpass"⟩).1.user
        = none :=
  login_failures_indistinguishable toyBcrypt (calm 0 0) (calm 0 0) janeIdle janeIdle
    "b@x.com" "longenough1" "a@x.com" "wrongpass"
    ⟨1, "Jane", "Doe", "a@x.com", "alongenough1"⟩ []
    (by decide) (by decide) (by decide) (by decide) rfl rfl rfl
    (by decide) (by decide) (by decide)

/-- C2, the code at the failing input: `a@x.com` is stored, `b@x.com` is not,
and `bcrypt.compare` rejects, as it does for a password that is not a string.
Same request otherwise, same state: `/login` answers 500 `Login failed.` for
the stored email, since the rejection is caught by the handler's `catch`, and
401 `Invalid email or password.` for the unknown one, where `compare` is never
called.  The two responses differ. -/
theorem login_compare_rejection_distinguishes :
    (login toyBcrypt { calm 0 0 with compareFails := true } janeIdle
        ⟨some "a@x.com", some "12345678"⟩).1
        = ⟨500, none, "Login failed.", none⟩ ∧
      (login toyBcrypt { calm 0 0 with compareFails := true } janeIdle
        ⟨some "b@x.com", some "12345678"⟩).1
        = ⟨401, none, "Invalid email or password.", none⟩ ∧
      (login toyBcrypt { calm 0 0 with compareFails := true } janeIdle
        ⟨some "a@x.com", some "12345678"⟩).1
        ≠ (login toyBcrypt { calm 0 0 with compareFails := true } janeIdle
            ⟨some "b@x.com", some "12345678"⟩).1 := by
  decide

/-- C8: a failed update does not consume the code.  In a reachable state where
`e` has the stored code `c`, when the hash or the `UPDATE` rejects during
`/reset-password` called with `(e, c, p, p)`, the handler answers 500 and the
whole state is as before, `e` still mapped to `c`; a later call with `(e, c)`
whose hash and update succeed answers 200 success. -/
theorem failed_reset_keeps_code (B : Bcrypt) (w w2 : World) (st : ServerState)
    (e c p q : String) (hwf : WellFormed st) (hget : st.otpStore.get e = some c)
    (hp : p ≠ "") (hq : q ≠ "") (hf : w.hashFails = true ∨ w.updateFails = true)
    (hh2 : w2.hashFails = false) (hu2 : w2.updateFails = false) :
    resetPassword B w st ⟨some e, some c, some p, some p⟩
        = (⟨500, none, "Reset failed", none⟩, st) ∧
      (resetPassword B w st ⟨some e, some c, some p, some p⟩).2.otpStore.get e = some c ∧
      (resetPassword B w2 (resetPassword B w st ⟨some e, some c, some p, some p⟩).2
          ⟨some e, some c, some q, some q⟩).1
        = ⟨200, some true, "Password updated", none⟩ := by
  obtain ⟨he, hc⟩ := key_value_ne_empty st e c hwf hget
  rw [resetPassword_fails B w st e c p he hc hp hget hf]
  refine ⟨rfl, hget, ?_⟩
  rw [resetPassword_accepts B w2 st e c q he hc hq hget hh2 hu2]

/-- Witness of C8: the `UPDATE` rejects on the pending reset of `a@x.com`. -/
theorem failed_reset_keeps_code_witness :
    resetPassword toyBcrypt { calm 0 0 with updateFails := true } janePending
        ⟨some "a@x.com", some "123456", some "newpass123", some "newpass123"⟩
        = (⟨500, none, "Reset failed", none⟩, janePending) ∧
      (resetPassword toyBcrypt { calm 0 0 with updateFails := true } janePending
        ⟨some "a@x.com", some "123456", some "newpass123", some "newpass123"⟩).2.otpStore.get
          "a@x.com" = some "123456" ∧
      (resetPassword toyBcrypt (calm 0 0)
          (resetPassword toyBcrypt { calm 0 0 with updateFails := true } janePending
            ⟨some "a@x.com", some "123456", some "newpass123", some "newpass123"⟩).2
          ⟨some "a@x.com", some "123456", some "other", some "other"⟩).1
        = ⟨200, some true, "Password updated", none⟩ :=
  failed_reset_keeps_code toyBcrypt { calm 0 0 with updateFails := true } (calm 0 0)
    janePending "a@x.com" "123456" "newpass123" "other" wellFormed_janePending
    (by decide) (by decide) (by decide) (Or.inr rfl) rfl rfl

/-! ## Claims on `/forgot-password` -/

/-- C7: only the latest code is valid.  In a reachable state with `e`
registered, two `/forgot-password` requests for `e` in a row, the lookups
answering and the codes drawn being different, leave exactly one entry for
`e`, holding the second code; `/reset-password` with the first code answers
400 `Invalid OTP` and changes nothing, and with the second code (hash and
update succeeding) answers 200 success. -/
theorem only_latest_code_valid (B : Bcrypt) (w1 w2 w3 w4 : World) (st : ServerState)
    (e p : String) (hwf : WellFormed st) (hreg : selectByEmail st.users e ≠ [])
    (hp : p ≠ "") (hs1 : w1.selectFails = false) (hs2 : w2.selectFails = false)
    (hne : otpCode w1 ≠ otpCode w2)
    (hh4 : w4.hashFails = false) (hu4 : w4.updateFails = false) :
    (forgotPassword w1 st ⟨some e⟩).2.otpStore.get e = some (otpCode w1) ∧
      (forgotPassword w2 (forgotPassword w1 st ⟨some e⟩).2 ⟨some e⟩).2.otpStore.entriesFor e
        = [(e, otpCode w2)] ∧
      resetPassword B w3 (forgotPassword w2 (forgotPassword w1 st ⟨some e⟩).2 ⟨some e⟩).2
          ⟨some e, some (otpCode w1), some p, some p⟩
        = (⟨400, none, "Invalid OTP", none⟩,
            (forgotPassword w2 (forgotPassword w1 st ⟨some e⟩).2 ⟨some e⟩).2) ∧
      (resetPassword B w4 (forgotPassword w2 (forgotPassword w1 st ⟨some e⟩).2 ⟨some e⟩).2
          ⟨some e, some (otpCode w2), some p, some p⟩).1
        = ⟨200, some true, "Password updated", none⟩ := by
  have he : e ≠ "" := email_ne_empty_of_registered st e hwf hreg
  have hwf1 : WellFormed (forgotPassword w1 st ⟨some e⟩).2 :=
    wellFormed_forgotPassword w1 st _ hwf
  rw [forgotPassword_stores w1 st e he hs1 hreg] at hwf1 ⊢
  simp only at hwf1 ⊢
  rw [forgotPassword_stores w2 { users := st.users, otpStore := st.otpStore.set e (otpCode w1) }
    e he hs2 hreg]
  simp only
  refine ⟨OtpStore.get_set_same _ _ _, OtpStore.entriesFor_set _ _ _ hwf1.2.2, ?_, ?_⟩
  · apply resetPassword_rejects B w3 _ e _ p he (otpCode_ne_empty w1) hp
    simp only [OtpStore.get_set_same]
    intro h
    exact hne (Option.some.inj h).symm
  · rw [resetPassword_accepts B w4 _ e _ p he (otpCode_ne_empty w2) hp
      (OtpStore.get_set_same _ _ _) hh4 hu4]

/-- Witness of C7: the codes `100001` and `100002` issued for `a@x.com`. -/
theorem only_latest_code_valid_witness :
    (forgotPassword (calm 0 1) janeIdle ⟨some "a@x.com"⟩).2.otpStore.get "a@x.com"
        = some (otpCode (calm 0 1)) ∧
      (forgotPassword (calm 0 2) (forgotPassword (calm 0 1) janeIdle ⟨some "a@x.com"⟩).2
          ⟨some "a@x.com"⟩).2.otpStore.entriesFor "a@x.com"
        = [("a@x.com", otpCode (calm 0 2))] ∧
      resetPassword toyBcrypt (calm 0 0)
          (forgotPassword (calm 0 2) (forgotPassword (calm 0 1) janeIdle ⟨some "a@x.com"⟩).2
            ⟨some "a@x.com"⟩).2
          ⟨some "a@x.com", some (otpCode (calm 0 1)), some "newpass123", some "newpass123"⟩
        = (⟨400, none, "Invalid OTP", none⟩,
            (forgotPassword (calm 0 2)
              (forgotPassword (calm 0 1) janeIdle ⟨some "a@x.com"⟩).2 ⟨some "a@x.com"⟩).2) ∧
      (resetPassword toyBcrypt (calm 0 0)
          (forgotPassword (calm 0 2) (forgotPassword (calm 0 1) janeIdle ⟨some "a@x.com"⟩).2
            ⟨some "a@x.com"⟩).2
          ⟨some "a@x.com", some (otpCode (calm 0 2)), some "newpass123",
            some "newpass123"⟩).1
        = ⟨200, some true, "Password updated", none⟩ :=
  only_latest_code_valid toyBcrypt (calm 0 1) (calm 0 2) (calm 0 0) (calm 0 0) janeIdle
    "a@x.com" "newpass123" wellFormed_janeIdle (by decide) (by decide) rfl rfl
    (by decide) rfl rfl

/-- C6, the code at the failing input: `a@x.com` is registered and has no
code pending, the mail transport rejects; `/forgot-password` answers 500
`Error sending OTP` and the code it drew stays in `otpStore`. -/
theorem forgot_password_mail_failure_keeps_code :
    forgotPassword { calm 0 5 with sendMailFails := true } janeIdle ⟨some "a@x.com"⟩
        = (⟨500, none, "Error sending OTP", none⟩,
            { users := janeUsers, otpStore := [("a@x.com", "100005")] }) ∧
      (forgotPassword { calm 0 5 with sendMailFails := true } janeIdle
          ⟨some "a@x.com"⟩).2.otpStore ≠ janeIdle.otpStore := by
  decide

/-! ## Claims on `/signup` racing with another signup -/

/-- C9, the code at the failing input: the lookup finds no row for
`a@x.com`, another connection inserts the email first and the `INSERT`
rejects with a duplicate-entry error; `/signup` answers the generic 500
`Internal server error.`, not 409 `Email already exists.`. -/
theorem signup_duplicate_insert_is_500 :
    signup toyBcrypt { calm 0 0 with insertFails := some InsertError.dupEntry }
        ServerState.empty
        ⟨some "Jane", some "Doe", some "a@x.com", some "longenough1", some "longenough1"⟩
        = (⟨500, none, "Internal server error.", none⟩, ServerState.empty) ∧
      (signup toyBcrypt { calm 0 0 with insertFails := some InsertError.dupEntry }
        ServerState.empty
        ⟨some "Jane", some "Doe", some "a@x.com", some "longenough1",
          some "longenough1"⟩).1.status ≠ 409 := by
  decide

/-! ## The reset round trip -/

theorem login_accepts_inv (B : Bcrypt) (w : World) (st : ServerState) (e p : String)
    (h : (login B w st ⟨some e, some p⟩).1.status = 200) :
    e ≠ "" ∧ p ≠ "" ∧ ∃ u rest, selectByEmail st.users e = u :: rest := by
  by_cases he : e = ""
  · simp [login, jsNot, he] at h
  by_cases hp : p = ""
  · simp [login, jsNot, hp] at h
  refine ⟨he, hp, ?_⟩
  cases hsel : selectByEmail st.users e with
  | nil =>
    by_cases hs : w.selectFails = true
    · simp [login, jsNot, he, hp, hs] at h
    · simp [login, jsNot, he, hp, hs, hsel] at h
  | cons u rest => exact ⟨u, rest, rfl⟩

theorem login_accepts (B : Bcrypt) (w : World) (st : ServerState) (e p : String)
    (u : UserRow) (rest : List UserRow) (he : e ≠ "") (hp : p ≠ "")
    (hs : w.selectFails = false) (hc : w.compareFails = false)
    (hsel : selectByEmail st.users e = u :: rest) (hm : B.compare p u.password = true) :
    (login B w st ⟨some e, some p⟩).1
      = ⟨200, some true, "Login successful",
          some { id := u.id, firstName := u.first_name, lastName := u.last_name,
                 email := u.email }⟩ := by
  simp [login, jsNot, he, hp, hs, hc, hsel, hm]

theorem login_rejects (B : Bcrypt) (w : World) (st : ServerState) (e p : String)
    (u : UserRow) (rest : List UserRow) (he : e ≠ "") (hp : p ≠ "")
    (hs : w.selectFails = false) (hc : w.compareFails = false)
    (hsel : selectByEmail st.users e = u :: rest) (hm : B.compare p u.password = false) :
    (login B w st ⟨some e, some p⟩).1
      = ⟨401, none, "Invalid email or password.", none⟩ := by
  simp [login, jsNot, he, hp, hs, hc, hsel, hm]

/-- C3: reset round trip.  Under an ideal hash, with every awaited call
succeeding, for an account `e` that `pOld` currently logs into and a non-empty
`pNew` other than `pOld`: `/forgot-password` for `e` answers 200,
`/reset-password` with the code it stored and `pNew` twice answers 200, after
which `/login` with `pNew` answers 200 with the projection of the account's
row and `/login` with `pOld` answers 401. -/
theorem reset_round_trip (B : Bcrypt) (hB : B.Ideal) (w0 w1 w2 w3 w4 : World)
    (st : ServerState) (e pOld pNew : String)
    (hold : (login B w0 st ⟨some e, some pOld⟩).1.status = 200)
    (hnew : pNew ≠ "") (hdiff : pNew ≠ pOld)
    (h1 : w1.AllSucceed) (h2 : w2.AllSucceed) (h3 : w3.AllSucceed) (h4 : w4.AllSucceed) :
    (forgotPassword w1 st ⟨some e⟩).1 = ⟨200, some true, "OTP sent to email", none⟩ ∧
      (resetPassword B w2 (forgotPassword w1 st ⟨some e⟩).2
          ⟨some e, (forgotPassword w1 st ⟨some e⟩).2.otpStore.get e, some pNew, some pNew⟩).1
        = ⟨200, some true, "Password updated", none⟩ ∧
      (∃ u rest, selectByEmail st.users e = u :: rest ∧
        (login B w3 (resetPassword B w2 (forgotPassword w1 st ⟨some e⟩).2
            ⟨some e, (forgotPassword w1 st ⟨some e⟩).2.otpStore.get e, some pNew,
              some pNew⟩).2 ⟨some e, some pNew⟩).1
          = ⟨200, some true, "Login successful",
              some { id := u.id, firstName := u.first_name, lastName := u.last_name,
                     email := u.email }⟩) ∧
      (login B w4 (resetPassword B w2 (forgotPassword w1 st ⟨some e⟩).2
          ⟨some e, (forgotPassword w1 st ⟨some e⟩).2.otpStore.get e, some pNew,
            some pNew⟩).2 ⟨some e, some pOld⟩).1
        = ⟨401, none, "Invalid email or password.", none⟩ := by
  obtain ⟨he, hpOld, u, rest, hsel⟩ := login_accepts_inv B w0 st e pOld hold
  have hreg : selectByEmail st.users e ≠ [] := by rw [hsel]; simp
  obtain ⟨h1s, -, -, -, -, h1m⟩ := h1
  obtain ⟨-, h2h, -, -, h2u, -⟩ := h2
  obtain ⟨h3s, -, h3c, -, -, -⟩ := h3
  obtain ⟨h4s, -, h4c, -, -, -⟩ := h4
  rw [forgotPassword_stores w1 st e he h1s hreg]
  simp only [h1m, OtpStore.get_set_same]
  rw [resetPassword_accepts B w2 _ e (otpCode w1) pNew he (otpCode_ne_empty w1) hnew
    (OtpStore.get_set_same _ _ _) h2h h2u]
  have hsel2 : selectByEmail (updatePassword st.users (B.hash w2.salt pNew) e) e
      = { u with password := B.hash w2.salt pNew }
          :: rest.map (fun v => { v with password := B.hash w2.salt pNew }) := by
    rw [selectByEmail_updatePassword, hsel]; rfl
  refine ⟨by simp, rfl, ⟨u, rest, hsel, ?_⟩, ?_⟩
  · exact login_accepts B w3 _ e pNew { u with password := B.hash w2.salt pNew } _
      he hnew h3s h3c hsel2 (by simp [hB _ _ _])
  · apply login_rejects B w4 _ e pOld { u with password := B.hash w2.salt pNew } _
      he hpOld h4s h4c hsel2
    have : pOld ≠ pNew := fun h => hdiff h.symm
    simp [hB _ _ _, this]

theorem toyBcrypt_ideal : toyBcrypt.Ideal := by
  intro s p q
  by_cases hpq : p = q
  · subst hpq
    by_cases hs : s % 2 = 0 <;> simp [toyBcrypt, hs]
  · have hqp : ¬ q.data = p.data := fun h => hpq (String.ext h).symm
    by_cases hs : s % 2 = 0 <;>
      simp [toyBcrypt, hs, hpq, hqp, String.ext_iff, String.data_append]

/-- Witness of C3: `a@x.com` moves from `longenough1` to `newpass123`. -/
theorem reset_round_trip_witness :
    (forgotPassword (calm 0 5) janeIdle ⟨some "a@x.com"⟩).1
        = ⟨200, some true, "OTP sent to email", none⟩ ∧
      (resetPassword toyBcrypt (calm 1 0) (forgotPassword (calm 0 5) janeIdle ⟨some "a@x.com"⟩).2
          ⟨some "a@x.com",
            (forgotPassword (calm 0 5) janeIdle ⟨some "a@x.com"⟩).2.otpStore.get "a@x.com",
            some "newpass123", some "newpass123"⟩).1
        = ⟨200, some true, "Password updated", none⟩ ∧
      (∃ u rest, selectByEmail janeIdle.users "a@x.com" = u :: rest ∧
        (login toyBcrypt (calm 0 0)
            (resetPassword toyBcrypt (calm 1 0)
              (forgotPassword (calm 0 5) janeIdle ⟨some "a@x.com"⟩).2
              ⟨some "a@x.com",
                (forgotPassword (calm 0 5) janeIdle ⟨some "a@x.com"⟩).2.otpStore.get "a@x.com",
                some "newpass123", some "newpass123"⟩).2
            ⟨some "a@x.com", some "newpass123"⟩).1
          = ⟨200, some true, "Login successful",
              some { id := u.id, firstName := u.first_name, lastName := u.last_name,
                     email := u.email }⟩) ∧
      (login toyBcrypt (calm 0 0)
          (resetPassword toyBcrypt (calm 1 0)
            (forgotPassword (calm 0 5) janeIdle ⟨some "a@x.com"⟩).2
            ⟨some "a@x.com",
              (forgotPassword (calm 0 5) janeIdle ⟨some "a@x.com"⟩).2.otpStore.get "a@x.com",
              some "newpass123", some "newpass123"⟩).2
          ⟨some "a@x.com", some "longenough1"⟩).1
        = ⟨401, none, "Invalid email or password.", none⟩ :=
  reset_round_trip toyBcrypt toyBcrypt_ideal (calm 0 0) (calm 0 5) (calm 1 0) (calm 0 0)
    (calm 0 0) janeIdle "a@x.com" "longenough1" "newpass123" (by decide) (by decide)
    (by decide) (by simp [World.AllSucceed, calm]) (by simp [World.AllSucceed, calm])
    (by simp [World.AllSucceed, calm]) (by simp [World.AllSucceed, calm])

theorem selectByEmail_length_pos (users : List UserRow) (e : String) :
    (selectByEmail users e).length > 0 ↔ ∃ u ∈ users, u.email = e := by
  simp [selectByEmail, List.length_pos, List.filter_eq_nil_iff]

theorem signup_state_of_not_created (B : Bcrypt) (w : World) (st : ServerState)
    (body : SignupBody) (h : (signup B w st body).1.status ≠ 201) :
    (signup B w st body).2 = st := by
  revert h
  unfold signup
  (repeat' split) <;> simp

theorem signup_success_of_created (B : Bcrypt) (w : World) (st : ServerState)
    (body : SignupBody) (h : (signup B w st body).1.status = 201) :
    (signup B w st body).1 = ⟨201, some true, "User registered successfully.", none⟩ := by
  revert h
  unfold signup
  (repeat' split) <;> simp

theorem signup_eq_reference (B : Bcrypt) (w : World) (st : ServerState) (body : SignupBody)
    (h : (w.selectFails = false ∧ w.hashFails = false ∧ w.insertFails = none)
      ∨ (registerReference B w.salt st body).1 = 400
      ∨ (w.selectFails = false ∧ (registerReference B w.salt st body).1 = 409)) :
    ((signup B w st body).1.status, (signup B w st body).2)
      = registerReference B w.salt st body := by
  obtain ⟨f, l, e, p, c⟩ := body
  rcases f with _ | f
  · simp [signup, registerReference, jsNot]
  rcases l with _ | l
  · simp [signup, registerReference, jsNot]
  rcases e with _ | e
  · simp [signup, registerReference, jsNot]
  rcases p with _ | p
  · simp [signup, registerReference, jsNot]
  rcases c with _ | c
  · simp [signup, registerReference, jsNot]
  by_cases hmiss : f = "" ∨ l = "" ∨ e = "" ∨ p = "" ∨ c = ""
  · have : (jsNot (some f) || jsNot (some l) || jsNot (some e) || jsNot (some p)
        || jsNot (some c)) = true := by
      simp only [jsNot_some, Bool.or_eq_true, decide_eq_true_eq]
      tauto
    simp [signup, registerReference, this, hmiss]
  · have hnot : ¬ (jsNot (some f) || jsNot (some l) || jsNot (some e) || jsNot (some p)
        || jsNot (some c)) = true := by
      simp only [jsNot_some, Bool.or_eq_true, decide_eq_true_eq]
      tauto
    have hf : f ≠ "" := fun h => hmiss (by simp [h])
    have hl : l ≠ "" := fun h => hmiss (by simp [h])
    have he : e ≠ "" := fun h => hmiss (by simp [h])
    have hp : p ≠ "" := fun h => hmiss (by simp [h])
    have hc : c ≠ "" := fun h => hmiss (by simp [h])
    by_cases hpc : p = c
    · subst hpc
      by_cases hlen : jsLength p < 8
      · simp [signup, registerReference, hnot, hf, hl, he, hp, hlen]
      · by_cases hex : ∃ u ∈ st.users, u.email = e
        · have hpos := (selectByEmail_length_pos st.users e).mpr hex
          have hsel : w.selectFails = false := by
            rcases h with h | h | h
            · exact h.1
            · simp [registerReference, hf, hl, he, hp, hlen, hex] at h
            · exact h.1
          simp only [gt_iff_lt] at hpos
          simp [signup, registerReference, hnot, hf, hl, he, hp, hlen, hex, hsel, hpos]
        · have hzero : ¬ (selectByEmail st.users e).length > 0 :=
            fun hp => hex ((selectByEmail_length_pos st.users e).mp hp)
          have hall : w.selectFails = false ∧ w.hashFails = false ∧ w.insertFails = none := by
            rcases h with h | h | h
            · exact h
            · simp [registerReference, hf, hl, he, hp, hlen, hex] at h
            · simp [registerReference, hf, hl, he, hp, hlen, hex] at h
          obtain ⟨hs, hh, hi⟩ := hall
          simp only [gt_iff_lt, List.length_pos, ne_eq, not_not] at hzero
          simp [signup, registerReference, hnot, hf, hl, he, hp, hlen, hex, hs, hh, hi, hzero,
            insertUser]
    · simp [signup, registerReference, hnot, hf, hl, he, hp, hc, hpc]

/-! ## Claims on `/signup` validation -/

/-- C4: `/signup` equals the first-failure-wins reference.  Whatever the
outside calls do, a request the reference rejects with 400 (a field missing
or empty, else passwords unequal, else `password.length` below 8) is answered
400; with the lookup answering, an email already stored is answered 409; with
lookup, hash and insert succeeding the result is the reference's, 201 with
exactly one new row holding the hash.  A 201 carries `success: true`, and
every other answer leaves the state as it was. -/
theorem signup_first_failure_wins (B : Bcrypt) (w : World) (st : ServerState)
    (body : SignupBody) :
    ((registerReference B w.salt st body).1 = 400 →
        ((signup B w st body).1.status, (signup B w st body).2)
          = registerReference B w.salt st body) ∧
      (w.selectFails = false → (registerReference B w.salt st body).1 = 409 →
        ((signup B w st body).1.status, (signup B w st body).2)
          = registerReference B w.salt st body) ∧
      (w.selectFails = false → w.hashFails = false → w.insertFails = none →
        ((signup B w st body).1.status, (signup B w st body).2)
          = registerReference B w.salt st body) ∧
      ((signup B w st body).1.status = 201 →
        (signup B w st body).1 = ⟨201, some true, "User registered successfully.", none⟩) ∧
      ((signup B w st body).1.status ≠ 201 → (signup B w st body).2 = st) :=
  ⟨fun h => signup_eq_reference B w st body (Or.inr (Or.inl h)),
    fun hs h => signup_eq_reference B w st body (Or.inr (Or.inr ⟨hs, h⟩)),
    fun hs hh hi => signup_eq_reference B w st body (Or.inl ⟨hs, hh, hi⟩),
    signup_success_of_created B w st body,
    signup_state_of_not_created B w st body⟩

/-- Witness of C4 at the boundary: a password of 8 characters is registered,
one of 7 characters is refused, and a taken email is a conflict. -/
theorem signup_first_failure_wins_witness :
    ((signup toyBcrypt (calm 0 0) ServerState.empty
          ⟨some "Jane", some "Doe", some "a@x.com", some "12345678", some "12345678"⟩).1.status,
        (signup toyBcrypt (calm 0 0) ServerState.empty
          ⟨some "Jane", some "Doe", some "a@x.com", some "12345678", some "12345678"⟩).2)
        = (201, { users := [⟨1, "Jane", "Doe", "a@x.com", "a12345678"⟩], otpStore := [] }) ∧
      ((signup toyBcrypt { calm 0 0 with selectFails := true } ServerState.empty
          ⟨some "Jane", some "Doe", some "a@x.com", some "1234567", some "1234567"⟩).1.status,
        (signup toyBcrypt { calm 0 0 with selectFails := true } ServerState.empty
          ⟨some "Jane", some "Doe", some "a@x.com", some "1234567", some "1234567"⟩).2)
        = (400, ServerState.empty) ∧
      ((signup toyBcrypt { calm 0 0 with insertFails := some InsertError.unavailable } janeIdle
          ⟨some "Joe", some "Doe", some "a@x.com", some "12345678", some "12345678"⟩).1.status,
        (signup toyBcrypt { calm 0 0 with insertFails := some InsertError.unavailable } janeIdle
          ⟨some "Joe", some "Doe", some "a@x.com", some "12345678", some "12345678"⟩).2)
        = (409, janeIdle) :=
  ⟨((signup_first_failure_wins toyBcrypt (calm 0 0) ServerState.empty
        ⟨some "Jane", some "Doe", some "a@x.com", some "12345678", some "12345678"⟩).2.2.1
        rfl rfl rfl).trans (by decide),
    ((signup_first_failure_wins toyBcrypt { calm 0 0 with selectFails := true }
        ServerState.empty
        ⟨some "Jane", some "Doe", some "a@x.com", some "1234567", some "1234567"⟩).1
        (by decide)).trans (by decide),
    ((signup_first_failure_wins toyBcrypt
        { calm 0 0 with insertFails := some InsertError.unavailable } janeIdle
        ⟨some "Joe", some "Doe", some "a@x.com", some "12345678", some "12345678"⟩).2.1
        rfl (by decide)).trans (by decide)⟩

/-! ## Email keys are used as received -/

theorem signup_created_inv (B : Bcrypt) (w : World) (st : ServerState) (body : SignupBody)
    (e : String) (hemail : body.email = some e)
    (h : (signup B w st body).1.status = 201) :
    ∃ f l p, (signup B w st body).2.users = insertUser st.users f l e (B.hash w.salt p) := by
  obtain ⟨f, l, e1, p, c⟩ := body
  simp only at hemail
  subst hemail
  revert h
  unfold signup
  split
  · simp
  · split
    · rename_i f1 l1 e1 p1 c1 hf hl he hp hc
      simp only [Option.some.injEq] at he
      subst he
      (repeat' split) <;> simp
      exact ⟨f1, l1, p1, rfl⟩
    · simp

theorem signup_conflict (B : Bcrypt) (w : World) (st : ServerState) (f l e p : String)
    (hf : f ≠ "") (hl : l ≠ "") (he : e ≠ "") (hp : 8 ≤ jsLength p)
    (hs : w.selectFails = false) (hpos : 0 < (selectByEmail st.users e).length) :
    signup B w st ⟨some f, some l, some e, some p, some p⟩
      = (⟨409, none, "Email already exists.", none⟩, st) := by
  have hpne : p ≠ "" := by
    intro h
    subst h
    simp [jsLength] at hp
  have hlen : ¬ jsLength p < 8 := Nat.not_lt.mpr hp
  simp [signup, jsNot, hf, hl, he, hpne, hlen, hs, hpos]

/-- C5, the claim fails: with an exact-match lookup, after `a@x.com` is
registered, signups with `A@x.com` and with ` a@x.com ` are answered 201, not
409; the server stores the email as it received it. -/
theorem signup_case_variant_is_accepted :
    (signup toyBcrypt (calm 0 0) ServerState.empty
        ⟨some "Jane", some "Doe", some "a@x.com", some "longenough1",
          some "longenough1"⟩).1.status = 201 ∧
      (signup toyBcrypt (calm 0 0)
        (signup toyBcrypt (calm 0 0) ServerState.empty
          ⟨some "Jane", some "Doe", some "a@x.com", some "longenough1",
            some "longenough1"⟩).2
        ⟨some "Jane", some "Doe", some "A@x.com", some "longenough1",
          some "longenough1"⟩).1.status = 201 ∧
      (signup toyBcrypt (calm 0 0)
        (signup toyBcrypt (calm 0 0) ServerState.empty
          ⟨some "Jane", some "Doe", some "a@x.com", some "longenough1",
            some "longenough1"⟩).2
        ⟨some "Jane", some "Doe", some " a@x.com ", some "longenough1",
          some "longenough1"⟩).1.status = 201 ∧
      (signup toyBcrypt (calm 0 0)
        (signup toyBcrypt (calm 0 0) ServerState.empty
          ⟨some "Jane", some "Doe", some "a@x.com", some "longenough1",
            some "longenough1"⟩).2
        ⟨some "Jane", some "Doe", some "A@x.com", some "longenough1",
          some "longenough1"⟩).2.users.map UserRow.email = ["a@x.com", "A@x.com"] := by
  decide

/-- C5 as amended: the server uses the email exactly as received.  After a
`/signup` with email `e` answered 201 the new row carries `e` unchanged, and
a second otherwise valid `/signup` with the same string `e`, the lookup
answering, is answered 409 `Email already exists.` and changes nothing. -/
theorem signup_same_email_conflicts (B : Bcrypt) (w1 w2 : World) (st : ServerState)
    (b1 : SignupBody) (e f l p : String) (hemail : b1.email = some e)
    (hfirst : (signup B w1 st b1).1.status = 201)
    (hf : f ≠ "") (hl : l ≠ "") (hp : 8 ≤ jsLength p) (hs : w2.selectFails = false) :
    (∃ row, (signup B w1 st b1).2.users = st.users ++ [row] ∧ row.email = e) ∧
      signup B w2 (signup B w1 st b1).2 ⟨some f, some l, some e, some p, some p⟩
        = (⟨409, none, "Email already exists.", none⟩, (signup B w1 st b1).2) := by
  obtain ⟨f1, l1, p1, hst⟩ := signup_created_inv B w1 st b1 e hemail hfirst
  have he : e ≠ "" := by
    intro h
    subst h
    obtain ⟨bf, bl, be, bp, bc⟩ := b1
    simp only at hemail
    subst hemail
    simp [signup, jsNot] at hfirst
  refine ⟨⟨_, hst, rfl⟩, ?_⟩
  have hpos : 0 < (selectByEmail (signup B w1 st b1).2.users e).length := by
    rw [hst]
    exact List.length_pos.mpr (selectByEmail_insertUser_same _ _ _ _ _)
  exact signup_conflict B w2 _ f l e p hf hl he hp hs hpos

/-- Witness of C5 as amended: `a@x.com` registered twice. -/
theorem signup_same_email_conflicts_witness :
    (∃ row, (signup toyBcrypt (calm 0 0) ServerState.empty
          ⟨some "Jane", some "Doe", some "a@x.com", some "longenough1",
            some "longenough1"⟩).2.users = ServerState.empty.users ++ [row]
        ∧ row.email = "a@x.com") ∧
      signup toyBcrypt (calm 0 0)
        (signup toyBcrypt (calm 0 0) ServerState.empty
          ⟨some "Jane", some "Doe", some "a@x.com", some "longenough1",
            some "longenough1"⟩).2
        ⟨some "Joe", some "Doe", some "a@x.com", some "12345678", some "12345678"⟩
        = (⟨409, none, "Email already exists.", none⟩,
            (signup toyBcrypt (calm 0 0) ServerState.empty
              ⟨some "Jane", some "Doe", some "a@x.com", some "longenough1",
                some "longenough1"⟩).2) :=
  signup_same_email_conflicts toyBcrypt (calm 0 0) (calm 0 0) ServerState.empty
    ⟨some "Jane", some "Doe", some "a@x.com", some "longenough1", some "longenough1"⟩
    "a@x.com" "Joe" "Doe" "12345678" rfl (by decide) (by decide) (by decide) (by decide) rfl

theorem longPasswords_signup (B : Bcrypt) (w : World) (st : ServerState) (body : SignupBody)
    (h : LongPasswords B st.users) : LongPasswords B (signup B w st body).2.users := by
  unfold signup
  split
  · exact h
  · split
    · rename_i f l e p c _ _ _ _ _
      (repeat' split) <;> try exact h
      intro u hu
      simp only [insertUser, List.mem_append, List.mem_singleton] at hu
      rcases hu with hu | hu
      · exact h u hu
      · exact ⟨w.salt, p, by rw [hu], Nat.not_lt.mp (by assumption)⟩
    · exact h

theorem longPasswords_janeUsers : LongPasswords toyBcrypt janeUsers := by
  intro u hu
  simp only [janeUsers, List.mem_singleton] at hu
  subst hu
  exact ⟨0, "longenough1", by decide, by decide⟩

theorem not_longPasswords_short :
    ¬ LongPasswords toyBcrypt
      [{ id := 1, first_name := "Jane", last_name := "Doe", email := "a@x.com",
         password := "ashort" }] := by
  intro h
  obtain ⟨s, p, hhash, hlen⟩ := h _ (List.mem_singleton.mpr rfl)
  have hdata := congrArg String.data hhash
  by_cases hs : s % 2 = 0
  · simp [toyBcrypt, hs, String.data_append] at hdata
    have hp : p = "short" := String.ext hdata.symm
    subst hp
    revert hlen
    decide
  · simp [toyBcrypt, hs, String.data_append] at hdata

/-! ## Claims on password length -/

/-- C10: `/reset-password` applies no minimum length.  In a reachable state
where `e` has the stored code `c`, for every non-empty `p`, however short,
the handler called with `(e, c, p, p)`, hash and update succeeding, answers
200 success and every row of `e` now stores the hash of `p`.  `/signup`
keeps "every stored password is the hash of a password of at least 8
characters", and `/reset-password` does not: from a state where it holds, a
reset to `short` is answered 200 and breaks it. -/
theorem reset_has_no_length_check (B : Bcrypt) (w : World) (st : ServerState)
    (e c p : String) (hwf : WellFormed st) (hget : st.otpStore.get e = some c)
    (hp : p ≠ "") (hh : w.hashFails = false) (hu : w.updateFails = false) :
    (resetPassword B w st ⟨some e, some c, some p, some p⟩).1
        = ⟨200, some true, "Password updated", none⟩ ∧
      (resetPassword B w st ⟨some e, some c, some p, some p⟩).2.users
        = updatePassword st.users (B.hash w.salt p) e ∧
      selectByEmail (resetPassword B w st ⟨some e, some c, some p, some p⟩).2.users e
        = (selectByEmail st.users e).map (fun u => { u with password := B.hash w.salt p }) ∧
      (∀ (w0 : World) (s0 : ServerState) (body : SignupBody),
        LongPasswords B s0.users → LongPasswords B (signup B w0 s0 body).2.users) ∧
      (LongPasswords toyBcrypt janePending.users ∧
        (resetPassword toyBcrypt (calm 0 0) janePending
          ⟨some "a@x.com", some "123456", some "short", some "short"⟩).1.status = 200 ∧
        ¬ LongPasswords toyBcrypt
          (resetPassword toyBcrypt (calm 0 0) janePending
            ⟨some "a@x.com", some "123456", some "short", some "short"⟩).2.users) := by
  obtain ⟨he, hc⟩ := key_value_ne_empty st e c hwf hget
  rw [resetPassword_accepts B w st e c p he hc hp hget hh hu]
  refine ⟨rfl, rfl, selectByEmail_updatePassword _ _ _, ?_, longPasswords_janeUsers, ?_, ?_⟩
  · intro w0 s0 body h
    exact longPasswords_signup B w0 s0 body h
  · decide
  · have hst : (resetPassword toyBcrypt (calm 0 0) janePending
        ⟨some "a@x.com", some "123456", some "short", some "short"⟩).2.users
        = [{ id := 1, first_name := "Jane", last_name := "Doe", email := "a@x.com",
             password := "ashort" }] := by decide
    rw [hst]
    exact not_longPasswords_short

/-- Witness of C10: the pending reset of `a@x.com` takes the one-character
password `x`. -/
theorem reset_has_no_length_check_witness :
    (resetPassword toyBcrypt (calm 1 0) janePending
        ⟨some "a@x.com", some "123456", some "x", some "x"⟩).1
        = ⟨200, some true, "Password updated", none⟩ ∧
      (resetPassword toyBcrypt (calm 1 0) janePending
        ⟨some "a@x.com", some "123456", some "x", some "x"⟩).2.users
        = [{ id := 1, first_name := "Jane", last_name := "Doe", email := "a@x.com",
             password := "bx" }] :=
  ⟨(reset_has_no_length_check toyBcrypt (calm 1 0) janePending "a@x.com" "123456" "x"
      wellFormed_janePending (by decide) (by decide) rfl rfl).1,
    (reset_has_no_length_check toyBcrypt (calm 1 0) janePending "a@x.com" "123456" "x"
      wellFormed_janePending (by decide) (by decide) rfl rfl).2.1.trans (by decide)⟩

end AuthServer
